import Mathlib

/-!
Shallow embedding of `src/LambdaFunctionAWS/lambda_function.py`, the AWS
Lambda request handler of the maintenance-ticket system, together with
proofs of the specification claims.

The handler is modelled as a pure function from an environment (the
nondeterministic inputs: the fresh uuid, the clock, the url signer), a
fault assignment for the external collaborators, the inbound event and
the world state (record store, object store, published notifications,
call trace) to a response paired with the final world state.  A raised
Python exception is modelled by returning the 500 response built in the
top-level `except` block together with the world as mutated so far.
-/

namespace Smrms

/-- Bucket name constant from the source (`BUCKET_NAME`). -/
def BUCKET_NAME : String := "smrms-images-cloud-2026"

/-- Topic ARN constant from the source (`SNS_TOPIC_ARN`). -/
def SNS_TOPIC_ARN : String := "arn:aws:sns:us-east-1:304361287272:MaintenanceAlertsStandard"

/-- The fixed CORS header set built at the top of `lambda_handler` (lines 29-33). -/
def corsHeaders : List (String × String) :=
  [("Access-Control-Allow-Origin", "*"),
   ("Access-Control-Allow-Headers", "*"),
   ("Access-Control-Allow-Methods", "OPTIONS,POST,GET,PUT,DELETE")]

/-- A DynamoDB ticket record.  Every attribute the handler ever writes is a
field; a `none` field models the attribute being absent from the item. -/
structure Item where
  ticketId : String
  aircraftProgram : Option String := none
  equipmentType : Option String := none
  equipmentId : Option String := none
  description : Option String := none
  priority : Option String := none
  status : Option String := none
  timestamp : Option String := none
  imageKey : Option String := none
deriving Repr, DecidableEq

/-- A published SNS notification (arguments of `sns.publish`, lines 142-146). -/
structure SnsMsg where
  topicArn : String
  subject : String
  message : String
deriving Repr, DecidableEq

/-- An item as returned by the GET branch: the stored record plus the
optional `imageUrl` attribute attached at line 111. -/
structure OutItem where
  item : Item
  imageUrl : Option String := none
deriving Repr, DecidableEq

/-- Response body.  `json.dumps` payloads are modelled structurally:
`message` for single-message dicts, `messageWithTicket` for the POST
success body, `items` for the GET body, `error` for the except-block body. -/
inductive RespBody where
  | empty
  | message (s : String)
  | messageWithTicket (msg ticketId : String)
  | items (xs : List OutItem)
  | error (e : String)
deriving Repr, DecidableEq

/-- An HTTP-style response as returned by every branch of the handler. -/
structure Response where
  statusCode : Nat
  headers : List (String × String)
  body : RespBody
deriving Repr, DecidableEq

/-- Parsed JSON request body (`json.loads(event['body'])`).  A `none` field
models the key being absent from the dict. -/
structure Body where
  imageBase64 : Option String := none
  aircraftProgram : Option String := none
  equipmentType : Option String := none
  equipmentId : Option String := none
  description : Option String := none
  priority : Option String := none
  ticketId : Option String := none
  status : Option String := none
  sendEmail : Option Bool := none
deriving Repr, DecidableEq

/-- The inbound event.  `httpMethod` models `event.get('httpMethod')`;
`requestContextMethod` models `event['requestContext']['http']['method']`
(`none` = some `KeyError` in the chain); `body = none` models
`event['body']` missing or `json.loads` raising (both are uncaught and
reach the top-level except block identically). -/
structure Event where
  httpMethod : Option String := none
  requestContextMethod : Option String := none
  body : Option Body := none
deriving Repr, DecidableEq

/-- The world state of the three collaborators plus an observation trace of
every collaborator call attempted (appended even when the call fails). -/
structure World where
  db : List Item := []
  s3 : List (String × List Nat) := []
  published : List SnsMsg := []
  trace : List String := []
deriving Repr, DecidableEq

/-- Which collaborator calls raise.  `s3DeleteFails` is the only fault the
handler catches (lines 132-135 and 167-170); every other fault propagates
to the top-level except block. -/
structure Faults where
  s3PutFails : Bool := false
  s3DeleteFails : Bool := false
  dbPutFails : Bool := false
  dbGetFails : Bool := false
  dbUpdateFails : Bool := false
  dbDeleteFails : Bool := false
  dbScanFails : Bool := false
  snsPublishFails : Bool := false
deriving Repr, DecidableEq

/-- The all-succeed fault assignment. -/
def noFaults : Faults := {}

/-- Nondeterministic inputs of one invocation: `str(uuid.uuid4())`,
`datetime.utcnow().isoformat()`, and the url returned by
`s3.generate_presigned_url` for a given key. -/
structure Env where
  freshId : String
  now : String
  presign : String → String

/-- Python truthiness of an optional string value: `None` and the empty
string are falsy (`if not http_method`, `body['imageBase64']` checks). -/
def pyTruthy : Option String → Bool
  | none => false
  | some s => s ≠ ""

/-- Method extraction, lines 38-43: `event.get('httpMethod')`, falling back
to the request-context method when falsy, then to `'OPTIONS'` on `KeyError`. -/
def resolveMethod (e : Event) : String :=
  match e.httpMethod with
  | some m =>
    if m = "" then
      match e.requestContextMethod with
      | some m2 => m2
      | none => "OPTIONS"
    else m
  | none =>
    match e.requestContextMethod with
    | some m2 => m2
    | none => "OPTIONS"

/-- Value of a standard base64 alphabet character, `none` for any other
character (skipped by Python's non-strict decoder). -/
def b64Val (c : Char) : Option Nat :=
  if 'A' ≤ c ∧ c ≤ 'Z' then some (c.toNat - 65)
  else if 'a' ≤ c ∧ c ≤ 'z' then some (c.toNat - 97 + 26)
  else if '0' ≤ c ∧ c ≤ '9' then some (c.toNat - 48 + 52)
  else if c = '+' then some 62
  else if c = '/' then some 63
  else none

/-- Core loop of CPython's `binascii.a2b_base64` in non-strict mode (the
mode used by `base64.b64decode` with default arguments): characters outside
the alphabet are skipped; a pad character completes a quad of length ≥ 2
once enough pads accumulate, ending the decode; leftover partial quads at
the end of input are an error. State: current quad position, pending
high bits, pad count, output bytes in reverse. -/
def b64Loop : List Char → Nat → Nat → Nat → List Nat → Option (List Nat)
  | [], quadPos, _, _, out => if quadPos = 0 then some out.reverse else none
  | c :: rest, quadPos, leftchar, pads, out =>
    if c = '=' then
      if 2 ≤ quadPos then
        if 4 ≤ quadPos + pads + 1 then some out.reverse
        else b64Loop rest quadPos leftchar (pads + 1) out
      else b64Loop rest quadPos leftchar pads out
    else
      match b64Val c with
      | none => b64Loop rest quadPos leftchar pads out
      | some v =>
        match quadPos with
        | 0 => b64Loop rest 1 v 0 out
        | 1 => b64Loop rest 2 (v % 16) 0 ((leftchar * 4 + v / 16) :: out)
        | 2 => b64Loop rest 3 (v % 4) 0 ((leftchar * 16 + v / 4) :: out)
        | _ => b64Loop rest 0 0 0 ((leftchar * 64 + v) :: out)

/-- Python `base64.b64decode` on a `str` argument: the string is first
encoded as ASCII (non-ASCII raises), then decoded in non-strict mode.
`none` models the raised exception. -/
def pyB64Decode (s : String) : Option (List Nat) :=
  if s.toList.any (fun c => 128 ≤ c.toNat) then none
  else b64Loop s.toList 0 0 0 []

/-- Splitting a character list on every comma (the separator is the single
character `','`, so Python's substring split coincides with this
character-level split). -/
def splitCommaAux : List Char → List Char → List (List Char)
  | [], acc => [acc.reverse]
  | c :: rest, acc =>
    if c = ',' then acc.reverse :: splitCommaAux rest []
    else splitCommaAux rest (c :: acc)

/-- Python `image_data.split(",")`. -/
def pySplitComma (s : String) : List String :=
  (splitCommaAux s.toList []).map String.mk

/-- Python `"," in image_data`. -/
def pyContainsComma (s : String) : Bool := s.toList.contains ','

/-- Lines 69-70: `if "," in image_data: image_data = image_data.split(",")[1]`.
Python `split` with no max-split splits on every comma, and `[1]` takes the
second segment. -/
def stripDataUri (s : String) : String :=
  if pyContainsComma s then
    match pySplitComma s with
    | _ :: second :: _ => second
    | _ => s
  else s

/-- Keyed lookup in the record store (`table.get_item(...).get('Item')`). -/
def dbGet (db : List Item) (tid : String) : Option Item :=
  db.find? (fun it => it.ticketId = tid)

/-- `table.put_item`: replace the item with the same key, else append. -/
def dbPutItem : List Item → Item → List Item
  | [], item => [item]
  | it :: rest, item =>
    if it.ticketId = item.ticketId then item :: rest else it :: dbPutItem rest item

/-- `table.update_item` with `set #s = :stat`: set the `status` attribute of
the keyed item; DynamoDB upserts a fresh item holding only the key and the
set attribute when no item with the key exists. -/
def dbUpdateStatus : List Item → String → String → List Item
  | [], tid, st => [{ ticketId := tid, status := some st }]
  | it :: rest, tid, st =>
    if it.ticketId = tid then { it with status := some st } :: rest
    else it :: dbUpdateStatus rest tid st

/-- `table.delete_item`: remove the keyed item; a no-op when absent. -/
def dbDeleteItem : List Item → String → List Item
  | [], _ => []
  | it :: rest, tid => if it.ticketId = tid then rest else it :: dbDeleteItem rest tid

/-- `s3.put_object`: store bytes under a key, overwriting. -/
def s3Put : List (String × List Nat) → String → List Nat → List (String × List Nat)
  | [], k, v => [(k, v)]
  | p :: rest, k, v => if p.1 = k then (k, v) :: rest else p :: s3Put rest k v

/-- `s3.delete_object`: remove a key from the bucket; no-op when absent. -/
def s3Delete (s3 : List (String × List Nat)) (k : String) : List (String × List Nat) :=
  s3.filter (fun p => p.1 ≠ k)

/-- Object-store lookup (used only in statements, to observe the store). -/
def s3Lookup (s3 : List (String × List Nat)) (k : String) : Option (List Nat) :=
  (s3.find? (fun p => p.1 = k)).map (fun p => p.2)

/-- `existing_item.get(attr, default)` where `existing_item` is `{}` when the
record is absent (`.get('Item', {})`, lines 127 and 165). -/
def itemGetD (ex : Option Item) (f : Item → Option String) (d : String) : String :=
  match ex with
  | some it => (f it).getD d
  | none => d

/-- The `'imageKey' in existing_item` test combined with the attribute read. -/
def existingImageKey (ex : Option Item) : Option String :=
  match ex with
  | some it => it.imageKey
  | none => none

/-- The top-level except block (lines 180-181): any uncaught exception
becomes a 500 response with the CORS headers; collaborator effects already
performed persist. -/
def err500 (e : String) (w : World) : Response × World :=
  ({ statusCode := 500, headers := corsHeaders, body := .error e }, w)

/-- Stable insertion of `a` into a list sorted descending by `key`: `a` goes
before the first element whose key is not greater than `key a`. -/
def insertByKeyDesc {α : Type} (key : α → String) (a : α) : List α → List α
  | [] => [a]
  | b :: l => if key a < key b then b :: insertByKeyDesc key a l else a :: b :: l

/-- Line 114: `items.sort(key=lambda x: x.get('timestamp', ''), reverse=True)`.
Python's sort is stable; a stable descending sort by a total preorder has a
unique result, realized here as stable insertion sort. -/
def sortByKeyDesc {α : Type} (key : α → String) (l : List α) : List α :=
  l.foldr (insertByKeyDesc key) []

/-- Lines 109-111: attach `imageUrl` (a presigned url) to an item carrying
an `imageKey`. -/
def attachUrl (env : Env) (it : Item) : OutItem :=
  match it.imageKey with
  | some k => { item := it, imageUrl := some (env.presign k) }
  | none => { item := it }

/-- Lines 79-92: assemble the POST record with its defaulted attributes,
adding `imageKey` only when `image_key` is truthy. -/
def mkPostItem (b : Body) (tid now : String) (image_key : Option String) : Item :=
  let item0 : Item :=
    { ticketId := tid
      aircraftProgram := some (b.aircraftProgram.getD "Unknown")
      equipmentType := some (b.equipmentType.getD "Unknown")
      equipmentId := some (b.equipmentId.getD "Unknown")
      description := some (b.description.getD "")
      priority := some (b.priority.getD "Low")
      status := some "Pending"
      timestamp := some now }
  if pyTruthy image_key then { item0 with imageKey := image_key } else item0

/-- Lines 94-96: `table.put_item(Item=item)` and the 201 response. -/
def postPersist (env : Env) (faults : Faults) (b : Body) (tid : String)
    (image_key : Option String) (w : World) : Response × World :=
  let item := mkPostItem b tid env.now image_key
  let w1 := { w with trace := w.trace ++ ["table.put_item"] }
  if faults.dbPutFails then err500 "db put_item failed" w1
  else
    ({ statusCode := 201, headers := corsHeaders,
       body := .messageWithTicket "Ticket created" tid },
     { w1 with db := dbPutItem w1.db item })

/-- POST branch, lines 55-96. -/
def handlePost (env : Env) (faults : Faults) (b : Body) (w : World) : Response × World :=
  let tid := env.freshId
  if pyTruthy b.imageBase64 then
    let image_data := stripDataUri (b.imageBase64.getD "")
    match pyB64Decode image_data with
    | none => err500 "binascii error" w
    | some decoded_image =>
      let image_key := tid ++ ".jpg"
      let w1 := { w with trace := w.trace ++ ["s3.put_object"] }
      if faults.s3PutFails then err500 "s3 put_object failed" w1
      else postPersist env faults b tid (some image_key)
             { w1 with s3 := s3Put w1.s3 image_key decoded_image }
  else postPersist env faults b tid none w

/-- GET branch, lines 101-115. -/
def handleGet (env : Env) (faults : Faults) (w : World) : Response × World :=
  let w1 := { w with trace := w.trace ++ ["table.scan"] }
  if faults.dbScanFails then err500 "db scan failed" w1
  else
    let withUrls := w1.db.map (attachUrl env)
    let w2 := { w1 with
      trace := w1.trace ++
        w1.db.filterMap (fun it => it.imageKey.map (fun _ => "s3.generate_presigned_url")) }
    let sorted := sortByKeyDesc (fun x => x.item.timestamp.getD "") withUrls
    ({ statusCode := 200, headers := corsHeaders, body := .items sorted }, w2)

/-- Lines 149-155: `table.update_item` setting the status and the 200 response. -/
def putUpdateStep (faults : Faults) (tid new_status : String) (w : World) : Response × World :=
  let w1 := { w with trace := w.trace ++ ["table.update_item"] }
  if faults.dbUpdateFails then err500 "db update_item failed" w1
  else
    ({ statusCode := 200, headers := corsHeaders, body := .message "Status updated" },
     { w1 with db := dbUpdateStatus w1.db tid new_status })

/-- PUT branch, lines 120-155. -/
def handlePut (faults : Faults) (b : Body) (w : World) : Response × World :=
  match b.ticketId with
  | none => err500 "KeyError ticketId" w
  | some tid =>
  match b.status with
  | none => err500 "KeyError status" w
  | some new_status =>
    let send_email := b.sendEmail.getD false
    let w1 := { w with trace := w.trace ++ ["table.get_item"] }
    if faults.dbGetFails then err500 "db get_item failed" w1
    else
      let existing := dbGet w1.db tid
      let w2 :=
        match (if new_status = "Complete" then existingImageKey existing else none) with
        | some k =>
          let wa := { w1 with trace := w1.trace ++ ["s3.delete_object"] }
          if faults.s3DeleteFails then wa
          else { wa with s3 := s3Delete wa.s3 k }
        | none => w1
      if send_email ∧ new_status = "Complete" then
        let eq_id := itemGetD existing Item.equipmentId "Unknown Equipment"
        let program := itemGetD existing Item.aircraftProgram ""
        let w3 := { w2 with trace := w2.trace ++ ["sns.publish"] }
        if faults.snsPublishFails then err500 "sns publish failed" w3
        else
          let msg : SnsMsg :=
            { topicArn := SNS_TOPIC_ARN
              subject := "RESOLVED: " ++ program ++ " - " ++ eq_id
              message := "Good news!\n\nThe maintenance request for " ++ eq_id ++
                " (" ++ program ++ ") has been marked as COMPLETE by the technician.\n\nTicket ID: " ++ tid }
          putUpdateStep faults tid new_status { w3 with published := w3.published ++ [msg] }
      else putUpdateStep faults tid new_status w2

/-- DELETE branch, lines 160-174. -/
def handleDelete (faults : Faults) (b : Body) (w : World) : Response × World :=
  match b.ticketId with
  | none => err500 "KeyError ticketId" w
  | some tid =>
    let w1 := { w with trace := w.trace ++ ["table.get_item"] }
    if faults.dbGetFails then err500 "db get_item failed" w1
    else
      let existing := dbGet w1.db tid
      let w2 :=
        match existingImageKey existing with
        | some k =>
          let wa := { w1 with trace := w1.trace ++ ["s3.delete_object"] }
          if faults.s3DeleteFails then wa
          else { wa with s3 := s3Delete wa.s3 k }
        | none => w1
      let w3 := { w2 with trace := w2.trace ++ ["table.delete_item"] }
      if faults.dbDeleteFails then err500 "db delete_item failed" w3
      else
        ({ statusCode := 200, headers := corsHeaders, body := .message "Deleted" },
         { w3 with db := dbDeleteItem w3.db tid })

/-- The full handler, `lambda_handler` (lines 24-181): method resolution,
the OPTIONS fast path, dispatch on method inside the try block, the
unsupported-method 400, and the catch-all 500. -/
def lambda_handler (env : Env) (faults : Faults) (event : Event) (w : World) :
    Response × World :=
  let http_method := resolveMethod event
  if http_method = "OPTIONS" then
    ({ statusCode := 200, headers := corsHeaders, body := .empty }, w)
  else if http_method = "POST" then
    match event.body with
    | none => err500 "json loads failed" w
    | some b => handlePost env faults b w
  else if http_method = "GET" then handleGet env faults w
  else if http_method = "PUT" then
    match event.body with
    | none => err500 "json loads failed" w
    | some b => handlePut faults b w
  else if http_method = "DELETE" then
    match event.body with
    | none => err500 "json loads failed" w
    | some b => handleDelete faults b w
  else
    ({ statusCode := 400, headers := corsHeaders, body := .message "Unsupported method" }, w)

/-! Helper lemmas about the store operations. -/

theorem s3Lookup_s3Put_self (s3 : List (String × List Nat)) (k : String) (v : List Nat) :
    s3Lookup (s3Put s3 k v) k = some v := by
  induction s3 with
  | nil => simp [s3Put, s3Lookup]
  | cons p rest ih =>
    by_cases h : p.1 = k
    · simp [s3Put, h, s3Lookup]
    · simpa [s3Put, h, s3Lookup, List.find?] using ih

theorem s3Lookup_s3Delete_self (s3 : List (String × List Nat)) (k : String) :
    s3Lookup (s3Delete s3 k) k = none := by
  unfold s3Lookup s3Delete
  rw [Option.map_eq_none', List.find?_eq_none]
  intro p hp
  have := (List.mem_filter.mp hp).2
  simpa using this

theorem dbGet_dbUpdateStatus_some (db : List Item) (tid st : String) (it : Item)
    (h : dbGet db tid = some it) :
    dbGet (dbUpdateStatus db tid st) tid = some { it with status := some st } := by
  induction db with
  | nil => simp [dbGet] at h
  | cons x rest ih =>
    by_cases hx : x.ticketId = tid
    · have : dbGet (x :: rest) tid = some x := by simp [dbGet, List.find?, hx]
      rw [this] at h
      cases h
      simp [dbUpdateStatus, hx, dbGet, List.find?]
    · have hstep : dbGet (x :: rest) tid = dbGet rest tid := by
        simp [dbGet, List.find?, hx]
      rw [hstep] at h
      have := ih h
      simpa [dbUpdateStatus, hx, dbGet, List.find?] using this

theorem dbDeleteItem_eq_of_none (db : List Item) (tid : String)
    (h : dbGet db tid = none) : dbDeleteItem db tid = db := by
  induction db with
  | nil => rfl
  | cons x rest ih =>
    rw [dbGet, List.find?_eq_none] at h
    have hx : ¬ x.ticketId = tid := by simpa using h x (by simp)
    have hrest : dbGet rest tid = none := by
      rw [dbGet, List.find?_eq_none]
      intro y hy
      exact h y (by simp [hy])
    simp [dbDeleteItem, hx, ih hrest]

/-! Helper lemmas about the Python stable descending sort. -/

theorem insertByKeyDesc_perm {α : Type} (key : α → String) (a : α) (l : List α) :
    (insertByKeyDesc key a l).Perm (a :: l) := by
  induction l with
  | nil => exact List.Perm.refl _
  | cons b t ih =>
    unfold insertByKeyDesc
    split
    · exact (ih.cons b).trans (List.Perm.swap a b t)
    · exact List.Perm.refl _

theorem sortByKeyDesc_perm {α : Type} (key : α → String) (l : List α) :
    (sortByKeyDesc key l).Perm l := by
  induction l with
  | nil => exact List.Perm.refl _
  | cons a t ih =>
    have : sortByKeyDesc key (a :: t) = insertByKeyDesc key a (sortByKeyDesc key t) := rfl
    rw [this]
    exact (insertByKeyDesc_perm key a (sortByKeyDesc key t)).trans (ih.cons a)

theorem insertByKeyDesc_pairwise {α : Type} (key : α → String) (a : α) (l : List α)
    (h : l.Pairwise (fun x y => key y ≤ key x)) :
    (insertByKeyDesc key a l).Pairwise (fun x y => key y ≤ key x) := by
  induction l with
  | nil => simp [insertByKeyDesc]
  | cons b t ih =>
    rcases List.pairwise_cons.mp h with ⟨hb, ht⟩
    unfold insertByKeyDesc
    split
    case isTrue hlt =>
      refine List.pairwise_cons.mpr ⟨?_, ih ht⟩
      intro x hx
      have hx' : x ∈ a :: t := (insertByKeyDesc_perm key a t).mem_iff.mp hx
      rcases List.mem_cons.mp hx' with rfl | hxt
      · exact le_of_lt hlt
      · exact hb x hxt
    case isFalse hnlt =>
      refine List.pairwise_cons.mpr ⟨?_, h⟩
      intro x hx
      rcases List.mem_cons.mp hx with rfl | hxt
      · exact le_of_not_lt hnlt
      · exact le_trans (hb x hxt) (le_of_not_lt hnlt)

theorem sortByKeyDesc_pairwise {α : Type} (key : α → String) (l : List α) :
    (sortByKeyDesc key l).Pairwise (fun x y => key y ≤ key x) := by
  induction l with
  | nil => simp [sortByKeyDesc]
  | cons a t ih => exact insertByKeyDesc_pairwise key a (sortByKeyDesc key t) ih

/-! Concrete fixtures used by witnesses and counterexamples. -/

/-- A concrete environment: fixed uuid, clock and signer. -/
def env0 : Env :=
  { freshId := "t1", now := "2026-01-01T00:00:00", presign := fun k => "https://s3/" ++ k }

/-- A record that carries an image key, as created by a POST with a photo. -/
def itemWithImage : Item :=
  { ticketId := "t1", equipmentId := some "HYD-12", aircraftProgram := some "F-35",
    status := some "Pending", timestamp := some "2026-01-01T00:00:00",
    imageKey := some "t1.jpg" }

/-! Claim theorems. -/

/-- C10: an inbound event carrying no method token at all (no top-level
`httpMethod` and no nested request-context method) is treated as a
preflight: status 200, the fixed CORS headers, an empty body, and the world
(stores, notifications, call trace) is untouched, so no collaborator call
is made. -/
theorem c10_no_method_token_is_preflight (env : Env) (faults : Faults)
    (b : Option Body) (w : World) :
    lambda_handler env faults
        { httpMethod := none, requestContextMethod := none, body := b } w =
      ({ statusCode := 200, headers := corsHeaders, body := .empty }, w) := by
  rfl

/-- C1: on a create (POST) request whose payload carries a non-empty image
field, if base64 decoding fails or the object-store put fails, the request
returns status 500 and the record store is left exactly as it was (no
ticket record is written). -/
theorem c1_image_failure_fails_whole_request (env : Env) (faults : Faults)
    (ev : Event) (w : World) (b : Body) (s : String)
    (hm : resolveMethod ev = "POST") (hb : ev.body = some b)
    (hi : b.imageBase64 = some s) (hs : s ≠ "")
    (hfail : pyB64Decode (stripDataUri s) = none ∨ faults.s3PutFails = true) :
    (lambda_handler env faults ev w).1.statusCode = 500 ∧
      (lambda_handler env faults ev w).2.db = w.db := by
  have hdisp : lambda_handler env faults ev w = handlePost env faults b w := by
    simp [lambda_handler, hm, hb]
  have htr : pyTruthy (some s) = true := by simp [pyTruthy, hs]
  rw [hdisp]
  simp only [handlePost, htr, hi, Option.getD_some, if_true]
  cases hdec : pyB64Decode (stripDataUri s) with
  | none => simp [err500]
  | some bytes =>
    rcases hfail with h | h
    · rw [h] at hdec
      cases hdec
    · simp [h, err500]

/-- Closed witness for C1: a POST whose image text is `"A"` (one base64
character cannot decode) yields a 500 and writes no record. -/
theorem c1_witness :
    (lambda_handler env0 noFaults
        { httpMethod := some "POST", body := some { imageBase64 := some "A" } }
        {}).1.statusCode = 500 ∧
      (lambda_handler env0 noFaults
        { httpMethod := some "POST", body := some { imageBase64 := some "A" } }
        {}).2.db = ({} : World).db :=
  c1_image_failure_fails_whole_request env0 noFaults
    { httpMethod := some "POST", body := some { imageBase64 := some "A" } }
    {} { imageBase64 := some "A" } "A" (by decide) rfl rfl (by decide)
    (Or.inl (by decide))

/-- C2 counterexample: the claim says the stored bytes are the base64
decoding of the entire remaining text after the first comma.  For the image
payload `"p,AAAA,BBBB"` the text after the first comma is `"AAAA,BBBB"`,
whose Python (non-strict) base64 decoding is the six bytes of
`"AAAABBBB"`; the code however stores `split(",")[1] = "AAAA"`, three
bytes, so the stored object differs from what the claim requires. -/
theorem c2_counterexample :
    (lambda_handler env0 noFaults
        { httpMethod := some "POST", body := some { imageBase64 := some "p,AAAA,BBBB" } }
        {}).1.statusCode = 201 ∧
      s3Lookup (lambda_handler env0 noFaults
        { httpMethod := some "POST", body := some { imageBase64 := some "p,AAAA,BBBB" } }
        {}).2.s3 (env0.freshId ++ ".jpg") = some [0, 0, 0] ∧
      pyB64Decode "AAAA,BBBB" = some [0, 0, 0, 4, 16, 65] ∧
      (some [0, 0, 0] : Option (List Nat)) ≠ some [0, 0, 0, 4, 16, 65] := by
  refine ⟨by decide, by decide, by decide, by decide⟩

/-- C2 amended: on a create (POST) request whose non-empty image payload
contains at least one comma, the bytes stored in the object store are the
base64 decoding of the SECOND comma-separated segment of the payload (the
text strictly between the first and the second comma; everything from the
second comma on is discarded), stored under the fresh ticketId with the
fixed `.jpg` suffix.  When the payload has exactly one comma this segment
is the whole remaining text after it. -/
theorem c2_amended_second_segment_stored (env : Env) (faults : Faults)
    (ev : Event) (w : World) (b : Body) (s seg0 seg1 : String)
    (rest : List String) (bytes : List Nat)
    (hm : resolveMethod ev = "POST") (hb : ev.body = some b)
    (hi : b.imageBase64 = some s) (hs : s ≠ "")
    (hcomma : pyContainsComma s = true)
    (hsplit : pySplitComma s = seg0 :: seg1 :: rest)
    (hdec : pyB64Decode seg1 = some bytes)
    (hput : faults.s3PutFails = false) :
    s3Lookup (lambda_handler env faults ev w).2.s3 (env.freshId ++ ".jpg") =
      some bytes := by
  have hdisp : lambda_handler env faults ev w = handlePost env faults b w := by
    simp [lambda_handler, hm, hb]
  have htr : pyTruthy (some s) = true := by simp [pyTruthy, hs]
  have hstrip : stripDataUri s = seg1 := by
    unfold stripDataUri
    rw [if_pos hcomma, hsplit]
  rw [hdisp]
  simp only [handlePost, htr, hi, Option.getD_some, if_true, hstrip, hdec, hput,
    Bool.false_eq_true, if_false]
  unfold postPersist
  cases hdb : faults.dbPutFails with
  | true => simpa [hdb, err500] using s3Lookup_s3Put_self w.s3 (env.freshId ++ ".jpg") bytes
  | false => simpa [hdb] using s3Lookup_s3Put_self w.s3 (env.freshId ++ ".jpg") bytes

/-- Closed witness for the amended C2: the payload `"p,AAAA,BBBB"` stores
the three bytes decoded from the second segment `"AAAA"`. -/
theorem c2_amended_witness :
    s3Lookup (lambda_handler env0 noFaults
        { httpMethod := some "POST", body := some { imageBase64 := some "p,AAAA,BBBB" } }
        {}).2.s3 (env0.freshId ++ ".jpg") = some [0, 0, 0] :=
  c2_amended_second_segment_stored env0 noFaults
    { httpMethod := some "POST", body := some { imageBase64 := some "p,AAAA,BBBB" } }
    {} { imageBase64 := some "p,AAAA,BBBB" } "p,AAAA,BBBB" "p" "AAAA" ["BBBB"]
    [0, 0, 0] (by decide) rfl rfl (by decide) (by decide) (by decide) (by decide) rfl

/-- The derived object key `ticket_id + ".jpg"` is never the empty string,
so the `if image_key:` truthiness test at line 91 always passes when an
image was stored. -/
theorem freshKey_ne_empty (s : String) : s ++ ".jpg" ≠ "" := by
  intro h
  have hlen : (s ++ ".jpg").length = 0 := by rw [h]; rfl
  rw [String.length_append] at hlen
  have h4 : (".jpg" : String).length = 4 := by decide
  omega

/-- C3: every successful create (POST) writes exactly one record: status
`Pending`, `aircraftProgram`, `equipmentType`, `equipmentId` defaulting to
`"Unknown"`, `description` defaulting to `""`, `priority` defaulting to
`"Low"` when absent from the payload, and the record carries `imageKey`
exactly when the payload carried a non-empty image. -/
theorem c3_created_record_defaults (env : Env) (ev : Event) (w : World) (b : Body)
    (hm : resolveMethod ev = "POST") (hb : ev.body = some b)
    (hdec : ∀ s, b.imageBase64 = some s → s ≠ "" →
      (pyB64Decode (stripDataUri s)).isSome = true) :
    ∃ it : Item,
      (lambda_handler env noFaults ev w).1.statusCode = 201 ∧
      (lambda_handler env noFaults ev w).2.db = dbPutItem w.db it ∧
      it.status = some "Pending" ∧
      it.aircraftProgram = some (b.aircraftProgram.getD "Unknown") ∧
      it.equipmentType = some (b.equipmentType.getD "Unknown") ∧
      it.equipmentId = some (b.equipmentId.getD "Unknown") ∧
      it.description = some (b.description.getD "") ∧
      it.priority = some (b.priority.getD "Low") ∧
      it.imageKey.isSome = pyTruthy b.imageBase64 := by
  have hdisp : lambda_handler env noFaults ev w = handlePost env noFaults b w := by
    simp [lambda_handler, hm, hb]
  rw [hdisp]
  cases htr : pyTruthy b.imageBase64 with
  | false =>
    refine ⟨mkPostItem b env.freshId env.now none, ?_⟩
    have hnone : pyTruthy (none : Option String) = false := rfl
    simp [handlePost, htr, postPersist, noFaults, mkPostItem, hnone]
  | true =>
    obtain ⟨s, hi, hs⟩ : ∃ s, b.imageBase64 = some s ∧ s ≠ "" := by
      cases hbi : b.imageBase64 with
      | none => rw [hbi] at htr; simp [pyTruthy] at htr
      | some s =>
        rw [hbi] at htr
        refine ⟨s, rfl, ?_⟩
        simpa [pyTruthy] using htr
    obtain ⟨bytes, hby⟩ := Option.isSome_iff_exists.mp (hdec s hi hs)
    refine ⟨mkPostItem b env.freshId env.now (some (env.freshId ++ ".jpg")), ?_⟩
    simp [handlePost, hi, pyTruthy, hs, hby, noFaults, postPersist, mkPostItem,
      freshKey_ne_empty]

/-- Closed witness for C3: a POST with an empty payload object creates the
all-defaults record with no image key. -/
theorem c3_witness :
    ∃ it : Item,
      (lambda_handler env0 noFaults
          { httpMethod := some "POST", body := some {} } {}).1.statusCode = 201 ∧
      (lambda_handler env0 noFaults
          { httpMethod := some "POST", body := some {} } {}).2.db =
        dbPutItem ({} : World).db it ∧
      it.status = some "Pending" ∧
      it.aircraftProgram = some ((none : Option String).getD "Unknown") ∧
      it.equipmentType = some ((none : Option String).getD "Unknown") ∧
      it.equipmentId = some ((none : Option String).getD "Unknown") ∧
      it.description = some ((none : Option String).getD "") ∧
      it.priority = some ((none : Option String).getD "Low") ∧
      it.imageKey.isSome = pyTruthy (none : Option String) :=
  c3_created_record_defaults env0
    { httpMethod := some "POST", body := some {} } {} {}
    (by decide) rfl (fun s hs _ => nomatch hs)

/-- C4: on an update (PUT) request with a well-formed body (given the
record fetch and the publish call succeed), exactly one notification is
published when `sendEmail` is true and the new status is `"Complete"`, and
zero notifications are published otherwise (`sendEmail` false or absent,
or any other status). -/
theorem c4_publish_exactly_one_iff_sendEmail_and_complete
    (env : Env) (faults : Faults) (ev : Event) (w : World)
    (b : Body) (tid st : String)
    (hm : resolveMethod ev = "PUT") (hb : ev.body = some b)
    (ht : b.ticketId = some tid) (hst : b.status = some st)
    (hg : faults.dbGetFails = false) (hp : faults.snsPublishFails = false) :
    (lambda_handler env faults ev w).2.published.length =
      w.published.length +
        (if b.sendEmail.getD false = true ∧ st = "Complete" then 1 else 0) := by
  have hdisp : lambda_handler env faults ev w = handlePut faults b w := by
    simp [lambda_handler, hm, hb]
  rw [hdisp]
  simp only [handlePut, ht, hst, hg, Bool.false_eq_true, if_false]
  by_cases hC : st = "Complete" <;>
    by_cases hsend : b.sendEmail.getD false = true <;>
      cases hdel : faults.s3DeleteFails <;>
        cases hupd : faults.dbUpdateFails <;>
          rcases hk : existingImageKey (dbGet w.db tid) with _ | k <;>
            simp [putUpdateStep, err500, hC, hsend, hdel, hupd, hk, hp, itemGetD]

/-- Closed witness for C4: a PUT marking a ticket Complete with
`sendEmail = true` on an empty store publishes exactly one notification. -/
theorem c4_witness :
    (lambda_handler env0 noFaults
        { httpMethod := some "PUT",
          body := some { ticketId := some "t1", status := some "Complete",
                         sendEmail := some true } }
        {}).2.published.length =
      ({} : World).published.length +
        (if (some true : Option Bool).getD false = true ∧
            ("Complete" : String) = "Complete" then 1 else 0) :=
  c4_publish_exactly_one_iff_sendEmail_and_complete env0 noFaults
    { httpMethod := some "PUT",
      body := some { ticketId := some "t1", status := some "Complete",
                     sendEmail := some true } }
    {} { ticketId := some "t1", status := some "Complete", sendEmail := some true }
    "t1" "Complete" (by decide) rfl rfl rfl rfl rfl

/-- C5: on an update (PUT) setting status `"Complete"` for a record that
carries an `imageKey`, a failing object-store delete is swallowed: the
request still returns 200, the status change is still applied to the
persisted record, and the object store is left untouched by the failed
delete. -/
theorem c5_s3_delete_failure_swallowed (env : Env) (ev : Event) (w : World)
    (b : Body) (tid : String) (it : Item) (k : String)
    (hm : resolveMethod ev = "PUT") (hb : ev.body = some b)
    (ht : b.ticketId = some tid) (hst : b.status = some "Complete")
    (hex : dbGet w.db tid = some it) (hik : it.imageKey = some k) :
    (lambda_handler env { s3DeleteFails := true } ev w).1.statusCode = 200 ∧
      dbGet (lambda_handler env { s3DeleteFails := true } ev w).2.db tid =
        some { it with status := some "Complete" } ∧
      (lambda_handler env { s3DeleteFails := true } ev w).2.s3 = w.s3 := by
  have hdisp : lambda_handler env { s3DeleteFails := true } ev w = handlePut { s3DeleteFails := true } b w := by
    simp [lambda_handler, hm, hb]
  rw [hdisp]
  simp only [handlePut, ht, hst]
  have hupd := dbGet_dbUpdateStatus_some w.db tid "Complete" it hex
  by_cases hsend : b.sendEmail.getD false = true <;>
    simp [putUpdateStep, err500, hsend, hex, hik, existingImageKey, itemGetD, hupd]

/-- Closed witness for C5: marking the fixture record Complete while the
object-store delete fails still succeeds and updates the status. -/
theorem c5_witness :
    (lambda_handler env0 { s3DeleteFails := true }
        { httpMethod := some "PUT",
          body := some { ticketId := some "t1", status := some "Complete" } }
        { db := [itemWithImage], s3 := [("t1.jpg", [0])] }).1.statusCode = 200 ∧
      dbGet (lambda_handler env0 { s3DeleteFails := true }
        { httpMethod := some "PUT",
          body := some { ticketId := some "t1", status := some "Complete" } }
        { db := [itemWithImage], s3 := [("t1.jpg", [0])] }).2.db "t1" =
        some { itemWithImage with status := some "Complete" } ∧
      (lambda_handler env0 { s3DeleteFails := true }
        { httpMethod := some "PUT",
          body := some { ticketId := some "t1", status := some "Complete" } }
        { db := [itemWithImage], s3 := [("t1.jpg", [0])] }).2.s3 =
        ({ db := [itemWithImage], s3 := [("t1.jpg", [0])] } : World).s3 :=
  c5_s3_delete_failure_swallowed env0
    { httpMethod := some "PUT",
      body := some { ticketId := some "t1", status := some "Complete" } }
    { db := [itemWithImage], s3 := [("t1.jpg", [0])] }
    { ticketId := some "t1", status := some "Complete" }
    "t1" itemWithImage "t1.jpg" (by decide) rfl rfl rfl (by decide) rfl

/-- Success shape of the PUT branch: when the record fetch, the publish and
the record update all succeed, the response is 200 and the record store is
the old store with only the keyed record's status set. -/
theorem handlePut_success_shape (faults : Faults) (b : Body) (w : World)
    (tid st : String)
    (ht : b.ticketId = some tid) (hst : b.status = some st)
    (hg : faults.dbGetFails = false) (hu : faults.dbUpdateFails = false)
    (hp : faults.snsPublishFails = false) :
    (handlePut faults b w).1.statusCode = 200 ∧
      (handlePut faults b w).2.db = dbUpdateStatus w.db tid st := by
  simp only [handlePut, ht, hst, hg, Bool.false_eq_true, if_false]
  by_cases hC : st = "Complete" <;>
    by_cases hsend : b.sendEmail.getD false = true <;>
      cases hdel : faults.s3DeleteFails <;>
        rcases hk : existingImageKey (dbGet w.db tid) with _ | k <;>
          simp [putUpdateStep, err500, hC, hsend, hdel, hk, itemGetD, hu, hp]

/-- C6: a successful update (PUT) modifies only the `status` attribute of
the persisted record: the updated record agrees with the old one on
`ticketId`, `aircraftProgram`, `equipmentType`, `equipmentId`,
`description`, `priority`, `timestamp` and `imageKey`. -/
theorem c6_update_modifies_only_status (env : Env) (faults : Faults) (ev : Event)
    (w : World) (b : Body) (tid st : String) (it : Item)
    (hm : resolveMethod ev = "PUT") (hb : ev.body = some b)
    (ht : b.ticketId = some tid) (hst : b.status = some st)
    (hg : faults.dbGetFails = false) (hu : faults.dbUpdateFails = false)
    (hp : faults.snsPublishFails = false)
    (hex : dbGet w.db tid = some it) :
    (lambda_handler env faults ev w).1.statusCode = 200 ∧
      ∃ it', dbGet (lambda_handler env faults ev w).2.db tid = some it' ∧
        it'.status = some st ∧
        it'.ticketId = it.ticketId ∧
        it'.aircraftProgram = it.aircraftProgram ∧
        it'.equipmentType = it.equipmentType ∧
        it'.equipmentId = it.equipmentId ∧
        it'.description = it.description ∧
        it'.priority = it.priority ∧
        it'.timestamp = it.timestamp ∧
        it'.imageKey = it.imageKey := by
  have hdisp : lambda_handler env faults ev w = handlePut faults b w := by
    simp [lambda_handler, hm, hb]
  rw [hdisp]
  obtain ⟨h200, hdb⟩ := handlePut_success_shape faults b w tid st ht hst hg hu hp
  have hupd := dbGet_dbUpdateStatus_some w.db tid st it hex
  exact ⟨h200, { it with status := some st },
    by rw [hdb]; exact hupd, rfl, rfl, rfl, rfl, rfl, rfl, rfl, rfl, rfl⟩

/-- Closed witness for C6: setting the fixture record's status to
`"InProgress"` leaves every other attribute unchanged. -/
theorem c6_witness :
    (lambda_handler env0 noFaults
        { httpMethod := some "PUT",
          body := some { ticketId := some "t1", status := some "InProgress" } }
        { db := [itemWithImage] }).1.statusCode = 200 ∧
      ∃ it', dbGet (lambda_handler env0 noFaults
          { httpMethod := some "PUT",
            body := some { ticketId := some "t1", status := some "InProgress" } }
          { db := [itemWithImage] }).2.db "t1" = some it' ∧
        it'.status = some "InProgress" ∧
        it'.ticketId = itemWithImage.ticketId ∧
        it'.aircraftProgram = itemWithImage.aircraftProgram ∧
        it'.equipmentType = itemWithImage.equipmentType ∧
        it'.equipmentId = itemWithImage.equipmentId ∧
        it'.description = itemWithImage.description ∧
        it'.priority = itemWithImage.priority ∧
        it'.timestamp = itemWithImage.timestamp ∧
        it'.imageKey = itemWithImage.imageKey :=
  c6_update_modifies_only_status env0 noFaults
    { httpMethod := some "PUT",
      body := some { ticketId := some "t1", status := some "InProgress" } }
    { db := [itemWithImage] }
    { ticketId := some "t1", status := some "InProgress" }
    "t1" "InProgress" itemWithImage
    (by decide) rfl rfl rfl rfl rfl rfl (by decide)

/-- C7 counterexample: the claim says `imageKey` is absent from the record
once the ticket is marked Complete.  Marking the fixture record (which
carries `imageKey = "t1.jpg"`) Complete succeeds, yet the persisted record
still carries `imageKey = "t1.jpg"`: the update only sets `status`. -/
theorem c7_counterexample :
    (lambda_handler env0 noFaults
        { httpMethod := some "PUT",
          body := some { ticketId := some "t1", status := some "Complete" } }
        { db := [itemWithImage], s3 := [("t1.jpg", [0])] }).1.statusCode = 200 ∧
      dbGet (lambda_handler env0 noFaults
        { httpMethod := some "PUT",
          body := some { ticketId := some "t1", status := some "Complete" } }
        { db := [itemWithImage], s3 := [("t1.jpg", [0])] }).2.db "t1" =
        some { itemWithImage with status := some "Complete" } ∧
      ({ itemWithImage with status := some "Complete" } : Item).imageKey =
        some "t1.jpg" := by
  refine ⟨by decide, by decide, by decide⟩

/-- C7 amended: a record carries `imageKey` only if a photo was supplied at
creation (a POST without a non-empty image never sets it); once the ticket
is marked Complete the referenced object is deleted from the object store,
but the `imageKey` field itself remains on the persisted record (only the
status attribute changes). -/
theorem c7_amended_imageKey_lifecycle :
    (∀ (env : Env) (faults : Faults) (ev : Event) (w : World) (b : Body),
      resolveMethod ev = "POST" → ev.body = some b →
      pyTruthy b.imageBase64 = false → faults.dbPutFails = false →
      (lambda_handler env faults ev w).2.db =
        dbPutItem w.db (mkPostItem b env.freshId env.now none) ∧
      (mkPostItem b env.freshId env.now none).imageKey = none) ∧
    (∀ (env : Env) (ev : Event) (w : World) (b : Body) (tid : String)
        (it : Item) (k : String),
      resolveMethod ev = "PUT" → ev.body = some b →
      b.ticketId = some tid → b.status = some "Complete" →
      dbGet w.db tid = some it → it.imageKey = some k →
      s3Lookup (lambda_handler env noFaults ev w).2.s3 k = none ∧
      dbGet (lambda_handler env noFaults ev w).2.db tid =
        some { it with status := some "Complete" } ∧
      ({ it with status := some "Complete" } : Item).imageKey = some k) := by
  constructor
  · intro env faults ev w b hm hb htr hput
    have hdisp : lambda_handler env faults ev w = handlePost env faults b w := by
      simp [lambda_handler, hm, hb]
    rw [hdisp]
    have hnone : pyTruthy (none : Option String) = false := rfl
    refine ⟨?_, by simp [mkPostItem, hnone]⟩
    simp [handlePost, htr, postPersist, hput]
  · intro env ev w b tid it k hm hb ht hst hex hik
    have hdisp : lambda_handler env noFaults ev w = handlePut noFaults b w := by
      simp [lambda_handler, hm, hb]
    rw [hdisp]
    obtain ⟨-, hdb⟩ := handlePut_success_shape noFaults b w tid "Complete" ht hst rfl rfl rfl
    have hs3 : (handlePut noFaults b w).2.s3 = s3Delete w.s3 k := by
      simp only [handlePut, ht, hst]
      by_cases hsend : b.sendEmail.getD false = true <;>
        simp [putUpdateStep, err500, hsend, hex, hik, existingImageKey, itemGetD, noFaults]
    refine ⟨?_, ?_, hik⟩
    · rw [hs3]; exact s3Lookup_s3Delete_self w.s3 k
    · rw [hdb]; exact dbGet_dbUpdateStatus_some w.db tid "Complete" it hex

/-- Closed witness for the amended C7: a POST without image creates a
record with no `imageKey`; marking the fixture record Complete deletes the
object `"t1.jpg"` yet leaves `imageKey` on the record. -/
theorem c7_amended_witness :
    ((lambda_handler env0 noFaults { httpMethod := some "POST", body := some {} }
        {}).2.db = dbPutItem ({} : World).db (mkPostItem {} env0.freshId env0.now none) ∧
      (mkPostItem {} env0.freshId env0.now none).imageKey = none) ∧
    (s3Lookup (lambda_handler env0 noFaults
        { httpMethod := some "PUT",
          body := some { ticketId := some "t1", status := some "Complete" } }
        { db := [itemWithImage], s3 := [("t1.jpg", [0])] }).2.s3 "t1.jpg" = none ∧
      dbGet (lambda_handler env0 noFaults
        { httpMethod := some "PUT",
          body := some { ticketId := some "t1", status := some "Complete" } }
        { db := [itemWithImage], s3 := [("t1.jpg", [0])] }).2.db "t1" =
        some { itemWithImage with status := some "Complete" } ∧
      ({ itemWithImage with status := some "Complete" } : Item).imageKey =
        some "t1.jpg") :=
  ⟨c7_amended_imageKey_lifecycle.1 env0 noFaults
      { httpMethod := some "POST", body := some {} } {} {} (by decide) rfl rfl rfl,
   c7_amended_imageKey_lifecycle.2 env0
      { httpMethod := some "PUT",
        body := some { ticketId := some "t1", status := some "Complete" } }
      { db := [itemWithImage], s3 := [("t1.jpg", [0])] }
      { ticketId := some "t1", status := some "Complete" }
      "t1" itemWithImage "t1.jpg" (by decide) rfl rfl rfl (by decide) rfl⟩

/-- C8: the list (GET) response returns exactly the stored records (each
with its optional presigned `imageUrl` attached), sorted by timestamp in
descending order, where a record missing a timestamp is keyed by the empty
string and therefore sorts after all records that have one. -/
theorem c8_list_sorted_by_timestamp_desc (env : Env) (faults : Faults)
    (ev : Event) (w : World)
    (hm : resolveMethod ev = "GET") (hs : faults.dbScanFails = false) :
    ∃ L, (lambda_handler env faults ev w).1 =
        { statusCode := 200, headers := corsHeaders, body := .items L } ∧
      L.Pairwise (fun x y => y.item.timestamp.getD "" ≤ x.item.timestamp.getD "") ∧
      L.Perm (w.db.map (attachUrl env)) := by
  have hdisp : lambda_handler env faults ev w = handleGet env faults w := by
    simp [lambda_handler, hm]
  rw [hdisp]
  refine ⟨sortByKeyDesc (fun x => x.item.timestamp.getD "") (w.db.map (attachUrl env)),
    ?_, sortByKeyDesc_pairwise _ _, sortByKeyDesc_perm _ _⟩
  simp [handleGet, hs]

/-- Closed witness for C8: listing a two-record store returns them newest
first. -/
theorem c8_witness :
    ∃ L, (lambda_handler env0 noFaults { httpMethod := some "GET" }
        { db := [{ ticketId := "a", timestamp := some "2026-01-01" },
                 { ticketId := "b", timestamp := some "2026-02-02" }] }).1 =
        { statusCode := 200, headers := corsHeaders, body := .items L } ∧
      L.Pairwise (fun x y => y.item.timestamp.getD "" ≤ x.item.timestamp.getD "") ∧
      L.Perm (({ db := [{ ticketId := "a", timestamp := some "2026-01-01" },
                        { ticketId := "b", timestamp := some "2026-02-02" }] } : World).db.map
        (attachUrl env0)) :=
  c8_list_sorted_by_timestamp_desc env0 noFaults { httpMethod := some "GET" }
    { db := [{ ticketId := "a", timestamp := some "2026-01-01" },
             { ticketId := "b", timestamp := some "2026-02-02" }] }
    (by decide) rfl

/-- C9: a delete (DELETE) request with a well-formed body issues the record
delete unconditionally (the store becomes `dbDeleteItem` of the old store,
with no existence check), returns 200 even when the object-store delete
fails (`s3DeleteFails` is unconstrained here), and deleting a nonexistent
ticketId leaves the store unchanged while still returning 200. -/
theorem c9_delete_nonexistent_succeeds (env : Env) (faults : Faults)
    (ev : Event) (w : World) (b : Body) (tid : String)
    (hm : resolveMethod ev = "DELETE") (hb : ev.body = some b)
    (ht : b.ticketId = some tid)
    (hg : faults.dbGetFails = false) (hd : faults.dbDeleteFails = false) :
    (lambda_handler env faults ev w).1.statusCode = 200 ∧
      (lambda_handler env faults ev w).2.db = dbDeleteItem w.db tid ∧
      (dbGet w.db tid = none → (lambda_handler env faults ev w).2.db = w.db) := by
  have hdisp : lambda_handler env faults ev w = handleDelete faults b w := by
    simp [lambda_handler, hm, hb]
  rw [hdisp]
  have main : (handleDelete faults b w).1.statusCode = 200 ∧
      (handleDelete faults b w).2.db = dbDeleteItem w.db tid := by
    simp only [handleDelete, ht, hg, Bool.false_eq_true, if_false]
    cases hdel : faults.s3DeleteFails <;>
      rcases hk : existingImageKey (dbGet w.db tid) with _ | k <;>
        simp [err500, hd, hdel, hk]
  refine ⟨main.1, main.2, fun hnone => ?_⟩
  rw [main.2, dbDeleteItem_eq_of_none w.db tid hnone]

/-- Closed witness for C9: deleting ticket `"missing"` from an empty store
returns 200 and leaves the store empty, with the object-store delete set to
fail. -/
theorem c9_witness :
    (lambda_handler env0 { s3DeleteFails := true }
        { httpMethod := some "DELETE", body := some { ticketId := some "missing" } }
        {}).1.statusCode = 200 ∧
      (lambda_handler env0 { s3DeleteFails := true }
        { httpMethod := some "DELETE", body := some { ticketId := some "missing" } }
        {}).2.db = dbDeleteItem ({} : World).db "missing" ∧
      (dbGet ({} : World).db "missing" = none →
        (lambda_handler env0 { s3DeleteFails := true }
          { httpMethod := some "DELETE", body := some { ticketId := some "missing" } }
          {}).2.db = ({} : World).db) :=
  c9_delete_nonexistent_succeeds env0 { s3DeleteFails := true }
    { httpMethod := some "DELETE", body := some { ticketId := some "missing" } }
    {} { ticketId := some "missing" } "missing" (by decide) rfl rfl rfl rfl

end Smrms
